import Mathlib

/-
Verification of the `logs` Go package (daily-rotating, leveled, asynchronous
file logger).  The development shallowly embeds the package's data model and
operations:

  * severity levels and the boot-time threshold parser (log.go lines 23-80),
  * the rotation-anchor date, its YYYY-MM-DD rendering and the strictly-after
    comparison (log.go lines 20, 82-83, 109-112),
  * the filesystem as an environment: file contents as a map from path to
    optional content, with the outcome of each fallible syscall (open, mkdir,
    stat) supplied by environment oracles, since the OS decides those outcomes
    independently of the program (e.g. a failed mkdir does not determine
    whether a later open fails: another process may create the directory),
  * the logger state (log.go lines 41-51; the Services struct of the
    method-based twin implementation has the same fields) and the operations
    BootLogger, isMustSplit, isExistOrCreate, split, and the emit family
    Trace / Debug / Info / Warning / Error / Printf / Print / Println /
    Fatal / Fatally.

Emit operations are embedded as state transformers: pushing onto the bounded
channel `logChan` is modelled as appending the rendered line to the `queue`
field, and the synchronous colorized console echo of Debug/Info/Warning/Error
is returned alongside the new state.  Caller-location capture through
`runtime.Caller(k)` is modelled by passing the call stack as a function
`st : Nat -> String × Nat` mapping a frame depth to the (file, line) that
`runtime.Caller` would report at that depth.  The results of the Go
formatting verbs applied to the caller's arguments (`fmt.Sprintf(format, v...)`,
`fmt.Sprintln(v...)`, `fmt.Sprintf("%v", v)`) are opaque inputs `msg`,
`msgln`, `vStr`: the embedding renders exactly the concatenations the source
builds around them.
-/

namespace Logs

/-- Severity levels, in the iota order of log.go lines 25-32:
TRACE, DEBUG, INFO, WARN, ERROR, OFF. -/
inductive LEVEL where
  | TRACE
  | DEBUG
  | INFO
  | WARN
  | ERROR
  | OFF
deriving DecidableEq, Repr

/-- The byte value of each level constant (`type LEVEL byte`, iota). -/
def LEVEL.toNat : LEVEL → Nat
  | .TRACE => 0
  | .DEBUG => 1
  | .INFO => 2
  | .WARN => 3
  | .ERROR => 4
  | .OFF => 5

/-- ASCII case folding of one character, as `strings.EqualFold` performs on
ASCII input (the configuration strings of interest are ASCII). -/
def foldChars (s : String) : List Char := s.data.map Char.toLower

/-- The function `strings.EqualFold` restricted to ASCII: case-insensitive equality. -/
def equalFold (a b : String) : Bool := foldChars a == foldChars b

/-- Boot-time configuration record (log.go lines 34-39; the Go field for the
line prefix is named Prefix). -/
structure LoggerConf where
  FileDir : String
  FileName : String
  LinePrefix : String
  Level : String
deriving DecidableEq, Repr

/-- The threshold chosen by the EqualFold cascade of BootLogger
(log.go lines 68-80): OFF, TRACE, INFO, WARN, ERROR on a case-insensitive
match, DEBUG for everything else. -/
def parseLevel (s : String) : LEVEL :=
  if equalFold s "OFF" then .OFF
  else if equalFold s "TRACE" then .TRACE
  else if equalFold s "INFO" then .INFO
  else if equalFold s "WARN" then .WARN
  else if equalFold s "ERROR" then .ERROR
  else .DEBUG

/-- A calendar date at day granularity: the result of
`time.Parse(DateFormat, time.Now().Format(DateFormat))`, which truncates the
clock to a date. -/
structure Date where
  year : Nat
  month : Nat
  day : Nat
deriving DecidableEq, Repr

/-- The comparison `a.After(b)` on day-truncated times: `a` is strictly later than `b`. -/
def Date.after (a b : Date) : Bool :=
  decide (b.year < a.year ∨
    (b.year = a.year ∧ (b.month < a.month ∨
      (b.month = a.month ∧ b.day < a.day))))

/-- Two-digit zero padding, as the Go layout components 01 and 02 render
month and day. -/
def pad2 (n : Nat) : String := if n < 10 then "0" ++ toString n else toString n

/-- Four-digit zero padding, as the Go layout component 2006 renders the
year. -/
def pad4 (n : Nat) : String :=
  if n < 10 then "000" ++ toString n
  else if n < 100 then "00" ++ toString n
  else if n < 1000 then "0" ++ toString n
  else toString n

/-- The rendering `t.Format("2006-01-02")`: the YYYY-MM-DD rendering of a date
(DateFormat, log.go line 20). -/
def Date.format (d : Date) : String :=
  pad4 d.year ++ "-" ++ pad2 d.month ++ "-" ++ pad2 d.day

/-- The filesystem environment.  `files` maps a path to the content of the
regular file stored there, `dirs` tells which directories exist.  The
`badOpen`, `badMkdir`, `badStat` oracles give the outcomes of the fallible
syscalls on each path: the OS decides these outcomes, and they are not
determined by the rest of the model (a stat can fail transiently, a mkdir
can fail although a later open succeeds because another process created the
directory in between). -/
structure FS where
  files : String → Option String
  dirs : String → Bool
  badOpen : String → Bool
  badMkdir : String → Bool
  badStat : String → Bool

/-- The syscall `os.Rename(src, tgt)`: fails iff the source does not exist; on success
the content moves to `tgt`, replacing any file already there (POSIX rename
overwrites its target). -/
def FS.rename (fs : FS) (src tgt : String) : Option FS :=
  match fs.files src with
  | none => none
  | some c =>
    some { fs with
      files := fun p => if p = tgt then some c
                        else if p = src then none
                        else fs.files p }

/-- The syscall `os.OpenFile(p, O_RDWR|O_APPEND|O_CREATE, 0666)`: fails iff the
environment says so; otherwise opens the existing file or creates an empty
one. -/
def FS.openAppend (fs : FS) (p : String) : Option FS :=
  if fs.badOpen p then none
  else
    match fs.files p with
    | some _ => some fs
    | none => some { fs with files := fun q => if q = p then some "" else fs.files q }

/-- The syscall `os.Mkdir(d, 0755)`: fails if the environment says so or the directory
already exists (EEXIST); otherwise records the new directory. -/
def FS.mkdir (fs : FS) (d : String) : Option FS :=
  if fs.badMkdir d || fs.dirs d then none
  else some { fs with dirs := fun q => decide (q = d) || fs.dirs q }

/-- Whether `os.Stat(d)` returns an error: the directory is missing, or the
environment makes the stat fail. -/
def FS.statErr (fs : FS) (d : String) : Bool := !fs.dirs d || fs.badStat d

/-- The helper `filepath.Join(dir, name)`, modelled as separator concatenation; the
claims use the joined path only as an opaque key. -/
def filepathJoin (dir name : String) : String := dir ++ "/" ++ name

/-- Characters after the last separator, accumulating the current
component. -/
def baseNameAux : List Char → List Char → List Char
  | [], acc => acc
  | c :: rest, acc =>
    if c = '/' then baseNameAux rest [] else baseNameAux rest (acc ++ [c])

/-- The helper `filepath.Base`, modelled as the suffix after the last separator; the
claims use the base name only as an opaque token inside rendered lines. -/
def baseName (p : String) : String := String.mk (baseNameAux p.data [])

/-- The standard-library line writer built by `log.New(logFile, prefix,
log.LstdFlags|log.Lmicroseconds)`: it is bound to an output handle and a
line prefix (the flag word is a fixed constant and carries no information). -/
structure StdLogger where
  out : String
  linePrefix : String
deriving DecidableEq, Repr

/-- The logger state: the package-level variables of log.go lines 41-51,
equally the fields of the Services struct of the twin implementation.  The
bounded channel `logChan` is modelled by the list `queue` of rendered lines,
in push order. -/
structure LogState where
  fileDir : String
  fileName : String
  linePrefix : String
  date : Date
  logFile : Option String
  logger : Option StdLogger
  logLevel : LEVEL
  queue : List String
deriving DecidableEq, Repr

/-- The path of the active log file, `filepath.Join(fileDir, fileName)`. -/
def activePath (s : LogState) : String := filepathJoin s.fileDir s.fileName

/-- The rotation target `sourceLog + "." + date.Format(DateFormat)`
(log.go line 131). -/
def backupPath (s : LogState) : String := activePath s ++ "." ++ s.date.format

/-- isMustSplit (log.go lines 109-112): today is strictly after the
anchor date. -/
def isMustSplit (today : Date) (s : LogState) : Bool := Date.after today s.date

/-- isExistOrCreate (log.go lines 115-123): if stat errors, try mkdir; a
mkdir failure is only logged (the returned Bool reports that logged
failure) and execution proceeds. -/
def isExistOrCreate (dir : String) (fs : FS) : FS × Bool :=
  if fs.statErr dir then
    match fs.mkdir dir with
    | none => (fs, true)
    | some fs1 => (fs1, false)
  else (fs, false)

/-- split (log.go lines 126-152): under the exclusive lock, close the active
file, rename it to the backup path named after the current anchor; on rename
failure return at once (anchor untouched); otherwise advance the anchor to
today, reopen the active path in append mode (on failure the Go variable
`logFile` is assigned nil alongside the error), and rebuild the line writer
on the new handle and the configured prefix.  The Bool reports success. -/
def split (today : Date) (s : LogState) (fs : FS) : LogState × FS × Bool :=
  match fs.rename (activePath s) (backupPath s) with
  | none => (s, fs, false)
  | some fs1 =>
    match fs1.openAppend (activePath s) with
    | none => ({ s with date := today, logFile := none }, fs1, false)
    | some fs2 =>
      ({ s with date := today,
                logFile := some (activePath s),
                logger := some { out := activePath s, linePrefix := s.linePrefix } },
       fs2, true)

/-- BootLogger (log.go lines 54-106): read the configuration, derive the
threshold, set the anchor to today; if rotation is already due (degenerate,
since the anchor was just set to today) rotate, otherwise ensure the
directory exists (mkdir failure only logged) and open the active file,
failing boot exactly when that open fails; finally build the line writer.
Returns the running state and filesystem, or none on error. -/
def BootLogger (conf : LoggerConf) (today : Date) (fs : FS) : Option (LogState × FS) :=
  let s : LogState :=
    { fileDir := conf.FileDir
      fileName := conf.FileName
      linePrefix := conf.LinePrefix
      date := today
      logFile := none
      logger := none
      logLevel := parseLevel conf.Level
      queue := [] }
  if isMustSplit today s then
    let r := split today s fs
    if r.2.2 then some (r.1, r.2.1) else none
  else
    match (isExistOrCreate s.fileDir fs).1.openAppend (activePath s) with
    | none => none
    | some fs2 =>
      some ({ s with logFile := some (activePath s),
                     logger := some { out := activePath s, linePrefix := s.linePrefix } },
            fs2)

/-- The queued line of a leveled emit:
`fmt.Sprintf("%v:%v]", "[TAG] ["+base, line) + fmt.Sprintf(" "+format, v...)`,
with `msg` standing for `fmt.Sprintf(format, v...)`. -/
def leveledLine (tag base : String) (ln : Nat) (msg : String) : String :=
  "[" ++ tag ++ "] [" ++ base ++ ":" ++ toString ln ++ "]" ++ " " ++ msg

/-- The colorized console echo of Debug/Info/Warning/Error:
`fmt.Printf("%s\033[0;40;CCm%s\033[0m\n", setNowTime(), s)` where `s` is
`fmt.Sprintf("%v:%v:%v%v]", "[TAG] ["+base, line, format, v)` and `vStr`
stands for the `%v` rendering of the argument slice. -/
def consoleLine (now color tag base : String) (ln : Nat) (format vStr : String) : String :=
  now ++ "\x1b[0;40;" ++ color ++ "m" ++
    "[" ++ tag ++ "] [" ++ base ++ ":" ++ toString ln ++ ":" ++ format ++ vStr ++ "]" ++
    "\x1b[0m\n"

/-- Trace (log.go lines 226-231): caller at frame 2; enqueue iff
logLevel <= TRACE; no console echo. -/
def Trace (st : Nat → String × Nat) (msg : String) (s : LogState) :
    LogState × List String :=
  if s.logLevel.toNat ≤ LEVEL.TRACE.toNat then
    ({ s with queue := s.queue ++ [leveledLine "TRACE" (baseName (st 2).1) (st 2).2 msg] }, [])
  else (s, [])

/-- Debug (log.go lines 234-241): caller at frame 1; always echo the
colorized console line (color 34); enqueue iff logLevel <= DEBUG. -/
def Debug (st : Nat → String × Nat) (format msg vStr now : String) (s : LogState) :
    LogState × List String :=
  if s.logLevel.toNat ≤ LEVEL.DEBUG.toNat then
    ({ s with queue := s.queue ++ [leveledLine "DEBUG" (baseName (st 1).1) (st 1).2 msg] },
     [consoleLine now "34" "DEBUG" (baseName (st 1).1) (st 1).2 format vStr])
  else (s, [consoleLine now "34" "DEBUG" (baseName (st 1).1) (st 1).2 format vStr])

/-- Info (log.go lines 244-251): caller at frame 1; console color 32;
enqueue iff logLevel <= INFO. -/
def Info (st : Nat → String × Nat) (format msg vStr now : String) (s : LogState) :
    LogState × List String :=
  if s.logLevel.toNat ≤ LEVEL.INFO.toNat then
    ({ s with queue := s.queue ++ [leveledLine "INFO" (baseName (st 1).1) (st 1).2 msg] },
     [consoleLine now "32" "INFO" (baseName (st 1).1) (st 1).2 format vStr])
  else (s, [consoleLine now "32" "INFO" (baseName (st 1).1) (st 1).2 format vStr])

/-- Warning (log.go lines 254-261): caller at frame 1; console color 33;
enqueue iff logLevel <= WARN. -/
def Warning (st : Nat → String × Nat) (format msg vStr now : String) (s : LogState) :
    LogState × List String :=
  if s.logLevel.toNat ≤ LEVEL.WARN.toNat then
    ({ s with queue := s.queue ++ [leveledLine "WARN" (baseName (st 1).1) (st 1).2 msg] },
     [consoleLine now "33" "WARN" (baseName (st 1).1) (st 1).2 format vStr])
  else (s, [consoleLine now "33" "WARN" (baseName (st 1).1) (st 1).2 format vStr])

/-- Error (log.go lines 264-271): caller at frame 1; console color 31;
enqueue iff logLevel <= ERROR. -/
def Error (st : Nat → String × Nat) (format msg vStr now : String) (s : LogState) :
    LogState × List String :=
  if s.logLevel.toNat ≤ LEVEL.ERROR.toNat then
    ({ s with queue := s.queue ++ [leveledLine "ERROR" (baseName (st 1).1) (st 1).2 msg] },
     [consoleLine now "31" "ERROR" (baseName (st 1).1) (st 1).2 format vStr])
  else (s, [consoleLine now "31" "ERROR" (baseName (st 1).1) (st 1).2 format vStr])

/-- Printf (log.go lines 192-195): caller at frame 1; unconditional push of
`fmt.Sprintf("[%v:%v]", Sprintf(format, v...)+base, line)`; no level tag, no
console echo. -/
def Printf (st : Nat → String × Nat) (msg : String) (s : LogState) :
    LogState × List String :=
  ({ s with queue := s.queue ++
      ["[" ++ msg ++ baseName (st 1).1 ++ ":" ++ toString (st 1).2 ++ "]"] }, [])

/-- Print (log.go lines 198-201): like Printf with `msg` standing for
`fmt.Sprint(v...)`. -/
def Print (st : Nat → String × Nat) (msg : String) (s : LogState) :
    LogState × List String :=
  ({ s with queue := s.queue ++
      ["[" ++ msg ++ baseName (st 1).1 ++ ":" ++ toString (st 1).2 ++ "]"] }, [])

/-- Println (log.go lines 204-207): caller at frame 1; unconditional push of
`fmt.Sprintf("[%v:%v]", base, line) + fmt.Sprintln(v...)`. -/
def Println (st : Nat → String × Nat) (msgln : String) (s : LogState) :
    LogState × List String :=
  ({ s with queue := s.queue ++
      ["[" ++ baseName (st 1).1 ++ ":" ++ toString (st 1).2 ++ "]" ++ msgln] }, [])

/-- The queued line of Fatal/Fatally:
`fmt.Sprintf("%v:%v]", "[ERROR] ["+base, line) + fmt.Sprintln(v...)`. -/
def fatalLine (base : String) (ln : Nat) (msgln : String) : String :=
  "[ERROR] [" ++ base ++ ":" ++ toString ln ++ "]" ++ msgln

/-- The full effect of a Fatal-class call: the state after the queue push,
the string written synchronously to the fallback standard-logger sink, and
the process exit code. -/
structure FatalResult where
  state : LogState
  fallback : String
  exitCode : Nat
deriving DecidableEq, Repr

/-- Fatal (log.go lines 210-215): caller at frame 1; unconditional queue
push; synchronous `log.Output(2, fmt.Sprintln(v))` to the fallback sink
(`vStr` stands for that rendering of the argument slice); then
`os.Exit(1)`. -/
def Fatal (st : Nat → String × Nat) (msgln vStr : String) (s : LogState) : FatalResult :=
  { state := { s with queue := s.queue ++ [fatalLine (baseName (st 1).1) (st 1).2 msgln] }
    fallback := vStr
    exitCode := 1 }

/-- Fatally (log.go lines 218-223): identical body to Fatal. -/
def Fatally (st : Nat → String × Nat) (msgln vStr : String) (s : LogState) : FatalResult :=
  { state := { s with queue := s.queue ++ [fatalLine (baseName (st 1).1) (st 1).2 msgln] }
    fallback := vStr
    exitCode := 1 }

/-! Helper lemmas -/

/-- A list never equals itself with one more element appended. -/
lemma push_ne (q : List String) (x : String) : ¬ q = q ++ [x] := by
  intro h
  have h2 := congrArg List.length h
  simp at h2

/-- A day-truncated time is never strictly after itself. -/
lemma Date.after_irrefl (d : Date) : Date.after d d = false := by
  simp [Date.after]

/-- The rotation target differs from the active path: it is the active path
with a nonempty suffix appended. -/
lemma activePath_ne_backupPath (s : LogState) : ¬ activePath s = backupPath s := by
  intro h
  have h2 := congrArg String.length h
  rw [backupPath, String.length_append, String.length_append] at h2
  have hdot : (".").length = 1 := rfl
  rw [hdot] at h2
  omega

/-- A rename from an existing source produces the moved file map. -/
lemma rename_some (fs : FS) (src tgt c : String) (h : fs.files src = some c) :
    fs.rename src tgt =
      some { fs with files := fun p => if p = tgt then some c
                                       else if p = src then none
                                       else fs.files p } := by
  simp [FS.rename, h]

/-- An open whose environment oracle reports failure returns none. -/
lemma openAppend_bad (fs : FS) (p : String) (hb : fs.badOpen p = true) :
    fs.openAppend p = none := by
  simp [FS.openAppend, hb]

/-- A permitted open of an absent path creates the empty file. -/
lemma openAppend_absent (fs : FS) (p : String) (hb : fs.badOpen p = false)
    (hf : fs.files p = none) :
    fs.openAppend p =
      some { fs with files := fun q => if q = p then some "" else fs.files q } := by
  simp [FS.openAppend, hb, hf]

/-- Full characterization of a successful split: the resulting state and the
resulting file map. -/
lemma split_success_spec (today : Date) (s : LogState) (fs : FS)
    (h : (split today s fs).2.2 = true) :
    (split today s fs).1 =
      { s with date := today,
               logFile := some (activePath s),
               logger := some { out := activePath s, linePrefix := s.linePrefix } } ∧
    (split today s fs).2.1.files =
      (fun p => if p = activePath s then some ""
                else if p = backupPath s then fs.files (activePath s)
                else fs.files p) := by
  have hne := activePath_ne_backupPath s
  cases hr : fs.rename (activePath s) (backupPath s) with
  | none =>
    exfalso
    simp only [split, hr] at h
    exact Bool.noConfusion h
  | some fs1 =>
    cases ho : fs1.openAppend (activePath s) with
    | none =>
      exfalso
      simp only [split, hr, ho] at h
      exact Bool.noConfusion h
    | some fs2 =>
      simp only [split, hr, ho]
      cases hc : fs.files (activePath s) with
      | none =>
        exfalso
        simp only [FS.rename, hc] at hr
        exact Option.noConfusion hr
      | some c =>
        rw [rename_some fs _ _ c hc] at hr
        have hfs1 := Option.some.inj hr
        subst hfs1
        set fs1 : FS :=
          { fs with files := fun p => if p = backupPath s then some c
                                      else if p = activePath s then none
                                      else fs.files p } with hfs1def
        have hsrc : fs1.files (activePath s) = none := by
          rw [hfs1def]
          simp [hne]
        cases hb : fs1.badOpen (activePath s) with
        | true =>
          exfalso
          rw [openAppend_bad fs1 _ hb] at ho
          exact Option.noConfusion ho
        | false =>
          rw [openAppend_absent fs1 _ hb hsrc] at ho
          have hfs2 := Option.some.inj ho
          subst hfs2
          refine ⟨by trivial, ?_⟩
          funext p
          by_cases hp : p = activePath s
          · simp [hp]
          · by_cases hq : p = backupPath s
            · simp [hp, hq, hfs1def, hc, Ne.symm hne]
            · simp [hp, hq, hfs1def]

/-- A split whose rename fails leaves state and filesystem untouched. -/
lemma split_rename_fail (today : Date) (s : LogState) (fs : FS)
    (h : fs.files (activePath s) = none) :
    split today s fs = (s, fs, false) := by
  simp only [split, FS.rename, h]

/-- The success flag of split is false exactly when the rename fails or the
reopen fails. -/
lemma split_fail_cases (today : Date) (s : LogState) (fs : FS)
    (h : (split today s fs).2.2 = false) :
    (fs.rename (activePath s) (backupPath s) = none ∧ split today s fs = (s, fs, false)) ∨
    (∃ fs1, fs.rename (activePath s) (backupPath s) = some fs1 ∧
      fs1.openAppend (activePath s) = none ∧
      split today s fs = ({ s with date := today, logFile := none }, fs1, false)) := by
  cases hr : fs.rename (activePath s) (backupPath s) with
  | none =>
    left
    refine ⟨rfl, ?_⟩
    simp only [split, hr]
  | some fs1 =>
    right
    refine ⟨fs1, rfl, ?_⟩
    cases ho : fs1.openAppend (activePath s) with
    | none => simp only [split, hr, ho, and_self]
    | some fs2 =>
      exfalso
      simp only [split, hr, ho] at h
      exact Bool.noConfusion h

/-- Strings that case-fold to distinct character lists cannot both be
EqualFold-matched by one string. -/
lemma equalFold_excl (s a b : String) (hab : ¬ foldChars a = foldChars b)
    (h : equalFold s a = true) : equalFold s b = false := by
  simp only [equalFold, beq_iff_eq] at h
  simp only [equalFold, beq_eq_false_iff_ne, ne_eq]
  intro hb
  exact hab (h ▸ hb)

/-! Claim theorems -/

/-- C1: for every configured threshold T with T ≠ OFF and every leveled emit
operation (Trace, Debug, Info, Warning, Error) at severity L, the rendered
line is pushed onto the queue (reaches the file sink) if and only if L ≥ T;
and when T = OFF, no leveled emit operation pushes a line onto the queue. -/
theorem C1_level_gating (st : Nat → String × Nat) (format msg vStr now : String)
    (s : LogState) :
    (s.logLevel ≠ .OFF →
      (((Trace st msg s).1.queue =
          s.queue ++ [leveledLine "TRACE" (baseName (st 2).1) (st 2).2 msg]) ↔
        s.logLevel.toNat ≤ LEVEL.TRACE.toNat) ∧
      (((Debug st format msg vStr now s).1.queue =
          s.queue ++ [leveledLine "DEBUG" (baseName (st 1).1) (st 1).2 msg]) ↔
        s.logLevel.toNat ≤ LEVEL.DEBUG.toNat) ∧
      (((Info st format msg vStr now s).1.queue =
          s.queue ++ [leveledLine "INFO" (baseName (st 1).1) (st 1).2 msg]) ↔
        s.logLevel.toNat ≤ LEVEL.INFO.toNat) ∧
      (((Warning st format msg vStr now s).1.queue =
          s.queue ++ [leveledLine "WARN" (baseName (st 1).1) (st 1).2 msg]) ↔
        s.logLevel.toNat ≤ LEVEL.WARN.toNat) ∧
      (((Error st format msg vStr now s).1.queue =
          s.queue ++ [leveledLine "ERROR" (baseName (st 1).1) (st 1).2 msg]) ↔
        s.logLevel.toNat ≤ LEVEL.ERROR.toNat)) ∧
    (s.logLevel = .OFF →
      (Trace st msg s).1.queue = s.queue ∧
      (Debug st format msg vStr now s).1.queue = s.queue ∧
      (Info st format msg vStr now s).1.queue = s.queue ∧
      (Warning st format msg vStr now s).1.queue = s.queue ∧
      (Error st format msg vStr now s).1.queue = s.queue) := by
  constructor
  · intro _
    refine ⟨?_, ?_, ?_, ?_, ?_⟩ <;>
      first
      | (by_cases hc : s.logLevel.toNat ≤ LEVEL.TRACE.toNat
         · simp [Trace, hc]
         · simp [Trace, hc, push_ne])
      | (by_cases hc : s.logLevel.toNat ≤ LEVEL.DEBUG.toNat
         · simp [Debug, hc]
         · simp [Debug, hc, push_ne])
      | (by_cases hc : s.logLevel.toNat ≤ LEVEL.INFO.toNat
         · simp [Info, hc]
         · simp [Info, hc, push_ne])
      | (by_cases hc : s.logLevel.toNat ≤ LEVEL.WARN.toNat
         · simp [Warning, hc]
         · simp [Warning, hc, push_ne])
      | (by_cases hc : s.logLevel.toNat ≤ LEVEL.ERROR.toNat
         · simp [Error, hc]
         · simp [Error, hc, push_ne])
  · intro hoff
    refine ⟨?_, ?_, ?_, ?_, ?_⟩ <;>
      simp [Trace, Debug, Info, Warning, Error, hoff, LEVEL.toNat]

/-- Witness for C1 at the concrete threshold WARN: the hypothesis T ≠ OFF
holds and the Trace push-condition instance follows from the theorem. -/
def stW : Nat → String × Nat := fun k => ("caller.go", k)

/-- A concrete running state with threshold WARN used by witnesses. -/
def sW : LogState :=
  { fileDir := "d", fileName := "f", linePrefix := "p"
    date := { year := 2021, month := 3, day := 18 }
    logFile := some "d/f"
    logger := some { out := "d/f", linePrefix := "p" }
    logLevel := .WARN
    queue := [] }

/-- C1 witness: at threshold WARN (≠ OFF) the Trace instance of the gating
equivalence holds. -/
theorem C1_level_gating_witness :
    sW.logLevel ≠ .OFF ∧
    (((Trace stW "m" sW).1.queue =
        sW.queue ++ [leveledLine "TRACE" (baseName (stW 2).1) (stW 2).2 "m"]) ↔
      sW.logLevel.toNat ≤ LEVEL.TRACE.toNat) :=
  ⟨by decide, ((C1_level_gating stW "fm" "m" "v" "now" sW).1 (by decide)).1⟩

/-- C2: every successful rotate renames the active file at
directory/fileName to fileName.A, A being the anchor held before the call
rendered as YYYY-MM-DD; sets the anchor to today; opens (creating if absent)
a fresh file in append mode at the original active path; and rebuilds the
line writer bound to the new handle and the configured prefix. -/
theorem C2_rotate_success (today : Date) (s : LogState) (fs : FS)
    (h : (split today s fs).2.2 = true) :
    (split today s fs).2.1.files (backupPath s) = fs.files (activePath s) ∧
    (split today s fs).1.date = today ∧
    (split today s fs).2.1.files (activePath s) = some "" ∧
    (split today s fs).1.logFile = some (activePath s) ∧
    (split today s fs).1.logger =
      some { out := activePath s, linePrefix := s.linePrefix } := by
  obtain ⟨h1, h2⟩ := split_success_spec today s fs h
  have hne := activePath_ne_backupPath s
  rw [h1, h2]
  refine ⟨?_, rfl, ?_, rfl, rfl⟩
  · simp [Ne.symm hne]
  · simp

/-- The anchor date 2021-03-18 used by concrete witnesses. -/
def d18 : Date := { year := 2021, month := 3, day := 18 }

/-- The next day, 2021-03-19, used as today by concrete witnesses. -/
def d19 : Date := { year := 2021, month := 3, day := 19 }

/-- A concrete filesystem: the active file d/f holds some content, the
directory d exists, and no syscall is made to fail. -/
def fsW : FS :=
  { files := fun p => if p = "d/f" then some "data" else none
    dirs := fun q => decide (q = "d")
    badOpen := fun _ => false
    badMkdir := fun _ => false
    badStat := fun _ => false }

/-- C2 witness: on the concrete state and filesystem the rotate succeeds and
the conclusion holds. -/
theorem C2_rotate_success_witness :
    (split d19 sW fsW).2.2 = true ∧
    ((split d19 sW fsW).2.1.files (backupPath sW) = fsW.files (activePath sW) ∧
     (split d19 sW fsW).1.date = d19 ∧
     (split d19 sW fsW).2.1.files (activePath sW) = some "" ∧
     (split d19 sW fsW).1.logFile = some (activePath sW) ∧
     (split d19 sW fsW).1.logger =
       some { out := activePath sW, linePrefix := sW.linePrefix }) :=
  ⟨rfl, C2_rotate_success d19 sW fsW rfl⟩

/-- The empty filesystem: no files, no directories, no forced failures. -/
def fsEmpty : FS :=
  { files := fun _ => none
    dirs := fun _ => false
    badOpen := fun _ => false
    badMkdir := fun _ => false
    badStat := fun _ => false }

/-- C3 counterexample: a rotate that fails at the rename (active file
missing) leaves the anchor at its old value, refuting the claim that the
anchor advances to today on every failing rotate, whether the rename or the
open fails. -/
theorem C3_counterexample :
    (split d19 sW fsEmpty).2.2 = false ∧
    (split d19 sW fsEmpty).1.date = sW.date ∧
    ¬ sW.date = d19 :=
  ⟨rfl, rfl, by decide⟩

/-- C3 amended: when rotate fails, the anchor has advanced to today exactly
when the rename succeeded (so the failure was the reopen); when the rename
itself failed, the anchor is unchanged. -/
theorem C3_failed_rotate_anchor (today : Date) (s : LogState) (fs : FS)
    (h : (split today s fs).2.2 = false) :
    (split today s fs).1.date =
      if (fs.rename (activePath s) (backupPath s)).isSome then today else s.date := by
  rcases split_fail_cases today s fs h with ⟨hr, heq⟩ | ⟨fs1, hr, ho, heq⟩
  · rw [heq, hr]
    rfl
  · rw [heq, hr]
    rfl

/-- C3 amended witness: the concrete failing rotate of the counterexample
satisfies the amended description. -/
theorem C3_failed_rotate_anchor_witness :
    (split d19 sW fsEmpty).2.2 = false ∧
    (split d19 sW fsEmpty).1.date =
      (if (fsEmpty.rename (activePath sW) (backupPath sW)).isSome then d19
       else sW.date) :=
  ⟨rfl, C3_failed_rotate_anchor d19 sW fsEmpty rfl⟩

/-- C4: the threshold set at boot is OFF, TRACE, INFO, WARN, or ERROR when
the configured string matches that name case-insensitively, and DEBUG for
every other string, including the string DEBUG itself and unrecognized
strings such as bogus; in particular error, Error and ERROR behave
identically. -/
theorem C4_threshold_parsing :
    (∀ s, equalFold s "OFF" = true → parseLevel s = .OFF) ∧
    (∀ s, equalFold s "TRACE" = true → parseLevel s = .TRACE) ∧
    (∀ s, equalFold s "INFO" = true → parseLevel s = .INFO) ∧
    (∀ s, equalFold s "WARN" = true → parseLevel s = .WARN) ∧
    (∀ s, equalFold s "ERROR" = true → parseLevel s = .ERROR) ∧
    (∀ s, equalFold s "OFF" = false → equalFold s "TRACE" = false →
      equalFold s "INFO" = false → equalFold s "WARN" = false →
      equalFold s "ERROR" = false → parseLevel s = .DEBUG) ∧
    parseLevel "DEBUG" = .DEBUG ∧
    parseLevel "bogus" = .DEBUG ∧
    parseLevel "error" = .ERROR ∧
    parseLevel "Error" = .ERROR ∧
    parseLevel "ERROR" = .ERROR := by
  refine ⟨?_, ?_, ?_, ?_, ?_, ?_, by decide, by decide, by decide, by decide, by decide⟩
  · intro s h
    simp [parseLevel, h]
  · intro s h
    have h0 := equalFold_excl s "TRACE" "OFF" (by decide) h
    simp [parseLevel, h, h0]
  · intro s h
    have h0 := equalFold_excl s "INFO" "OFF" (by decide) h
    have h1 := equalFold_excl s "INFO" "TRACE" (by decide) h
    simp [parseLevel, h, h0, h1]
  · intro s h
    have h0 := equalFold_excl s "WARN" "OFF" (by decide) h
    have h1 := equalFold_excl s "WARN" "TRACE" (by decide) h
    have h2 := equalFold_excl s "WARN" "INFO" (by decide) h
    simp [parseLevel, h, h0, h1, h2]
  · intro s h
    have h0 := equalFold_excl s "ERROR" "OFF" (by decide) h
    have h1 := equalFold_excl s "ERROR" "TRACE" (by decide) h
    have h2 := equalFold_excl s "ERROR" "INFO" (by decide) h
    have h3 := equalFold_excl s "ERROR" "WARN" (by decide) h
    simp [parseLevel, h, h0, h1, h2, h3]
  · intro s h0 h1 h2 h3 h4
    simp [parseLevel, h0, h1, h2, h3, h4]

/-- C4 witness: concrete instances of each quantified branch, with every
hypothesis discharged by evaluation. -/
theorem C4_threshold_parsing_witness :
    parseLevel "off" = LEVEL.OFF ∧
    parseLevel "wArN" = LEVEL.WARN ∧
    parseLevel "bogUS" = LEVEL.DEBUG :=
  ⟨C4_threshold_parsing.1 "off" (by decide),
   C4_threshold_parsing.2.2.2.1 "wArN" (by decide),
   C4_threshold_parsing.2.2.2.2.2.1 "bogUS" (by decide) (by decide) (by decide)
     (by decide) (by decide)⟩

/-- A filesystem on which the mkdir of the log directory fails while every
open succeeds (as happens when another process creates the directory between
the failed mkdir and the open). -/
def fsC5 : FS :=
  { files := fun _ => none
    dirs := fun _ => false
    badOpen := fun _ => false
    badMkdir := fun q => decide (q = "d")
    badStat := fun _ => false }

/-- The boot configuration used by concrete witnesses. -/
def confW : LoggerConf :=
  { FileDir := "d", FileName := "f", LinePrefix := "p", Level := "warn" }

/-- C5 counterexample: directory creation fails during boot (the failure is
only logged), yet boot succeeds because the subsequent open succeeds —
refuting the claim that boot returns an error whenever directory creation
fails. -/
theorem C5_counterexample :
    (isExistOrCreate confW.FileDir fsC5).2 = true ∧
    (BootLogger confW d19 fsC5).isSome = true :=
  ⟨rfl, rfl⟩

/-- C5 amended: boot returns an error exactly when opening the active file
fails; a directory-creation failure is only logged and boot proceeds. -/
theorem C5_boot_error_iff (conf : LoggerConf) (today : Date) (fs : FS) :
    BootLogger conf today fs = none ↔
      (isExistOrCreate conf.FileDir fs).1.openAppend
        (filepathJoin conf.FileDir conf.FileName) = none := by
  cases ho : (isExistOrCreate conf.FileDir fs).1.openAppend
      (filepathJoin conf.FileDir conf.FileName) with
  | none =>
    simp [BootLogger, isMustSplit, Date.after_irrefl, activePath, ho]
  | some fs2 =>
    simp [BootLogger, isMustSplit, Date.after_irrefl, activePath, ho]

/-- A filesystem on which opening the active file fails. -/
def fsC5b : FS :=
  { files := fun _ => none
    dirs := fun q => decide (q = "d")
    badOpen := fun q => decide (q = "d/f")
    badMkdir := fun _ => false
    badStat := fun _ => false }

/-- C5 amended witness: on a filesystem whose open of the active file fails,
boot returns an error, by the amended equivalence. -/
theorem C5_boot_error_iff_witness :
    BootLogger confW d19 fsC5b = none :=
  (C5_boot_error_iff confW d19 fsC5b).mpr rfl

/-- C6 counterexample: with the anchor equal to today (a single prior
anchor), two rotates in immediate succession both succeed, and the second
overwrites the first backup (content data) with the fresh empty active file
— refuting the claim that the second call does not clobber the first
backup. -/
theorem C6_counterexample :
    (split d18 sW fsW).2.2 = true ∧
    (split d18 (split d18 sW fsW).1 (split d18 sW fsW).2.1).2.2 = true ∧
    (split d18 sW fsW).2.1.files (backupPath sW) = some "data" ∧
    (split d18 (split d18 sW fsW).1 (split d18 sW fsW).2.1).2.1.files
      (backupPath sW) = some "" :=
  ⟨rfl, rfl, rfl, rfl⟩

/-- C6 amended: without a day-boundary crossing the due-check reports not
due (also immediately after a successful rotate, which sets the anchor to
today); two distinct backup files arise only from two distinct prior
anchors; and when the prior anchors coincide, the second rotate targets the
same backup path and, if it succeeds, leaves the fresh empty file there,
overwriting the first backup. -/
theorem C6_rotation_idempotence (today : Date) (s : LogState) (fs : FS)
    (h : (split today s fs).2.2 = true) :
    (Date.after today s.date = false → isMustSplit today s = false) ∧
    (split today s fs).1.date = today ∧
    isMustSplit today (split today s fs).1 = false ∧
    (¬ backupPath (split today s fs).1 = backupPath s → ¬ s.date = today) ∧
    (s.date = today →
      backupPath (split today s fs).1 = backupPath s ∧
      ((split today (split today s fs).1 (split today s fs).2.1).2.2 = true →
        (split today (split today s fs).1 (split today s fs).2.1).2.1.files
          (backupPath s) = some "")) := by
  obtain ⟨h1, h2⟩ := split_success_spec today s fs h
  have hbp : s.date = today → backupPath (split today s fs).1 = backupPath s := by
    intro hdate
    rw [h1]
    simp [backupPath, activePath, hdate]
  refine ⟨fun hb => hb, by rw [h1], ?_, ?_, ?_⟩
  · show Date.after today (split today s fs).1.date = false
    rw [h1]
    exact Date.after_irrefl today
  · intro hne1 hdate
    exact hne1 (hbp hdate)
  · intro hdate
    refine ⟨hbp hdate, ?_⟩
    intro h2s
    obtain ⟨g1, g2⟩ :=
      split_success_spec today ((split today s fs).1) ((split today s fs).2.1) h2s
    rw [g2]
    have hact : activePath (split today s fs).1 = activePath s := by
      rw [h1]
      rfl
    simp only [hact, hbp hdate]
    rw [h2]
    simp [Ne.symm (activePath_ne_backupPath s)]

/-- C6 witness: a same-day double rotate on the concrete state, with the
success hypothesis discharged by evaluation. -/
theorem C6_rotation_idempotence_witness :
    (split d18 sW fsW).2.2 = true ∧
    ((Date.after d18 sW.date = false → isMustSplit d18 sW = false) ∧
     (split d18 sW fsW).1.date = d18 ∧
     isMustSplit d18 (split d18 sW fsW).1 = false ∧
     (¬ backupPath (split d18 sW fsW).1 = backupPath sW → ¬ sW.date = d18) ∧
     (sW.date = d18 →
       backupPath (split d18 sW fsW).1 = backupPath sW ∧
       ((split d18 (split d18 sW fsW).1 (split d18 sW fsW).2.1).2.2 = true →
         (split d18 (split d18 sW fsW).1 (split d18 sW fsW).2.1).2.1.files
           (backupPath sW) = some ""))) :=
  ⟨rfl, C6_rotation_idempotence d18 sW fsW rfl⟩

/-- C7: for every configured threshold, including OFF (the state is fully
universally quantified, so every logLevel is covered), Fatal and Fatally
push their rendered record onto the queue with no level filter, write the
fmt.Sprintln rendering of the argument slice synchronously to the fallback
standard-logger sink, and exit the process with code 1. -/
theorem C7_fatal_bypass (st : Nat → String × Nat) (msgln vStr : String) (s : LogState) :
    (Fatal st msgln vStr s).state.queue =
      s.queue ++ [fatalLine (baseName (st 1).1) (st 1).2 msgln] ∧
    (Fatal st msgln vStr s).fallback = vStr ∧
    (Fatal st msgln vStr s).exitCode = 1 ∧
    (Fatally st msgln vStr s).state.queue =
      s.queue ++ [fatalLine (baseName (st 1).1) (st 1).2 msgln] ∧
    (Fatally st msgln vStr s).fallback = vStr ∧
    (Fatally st msgln vStr s).exitCode = 1 :=
  ⟨rfl, rfl, rfl, rfl, rfl, rfl⟩

/-- C8: no operation after boot modifies directory, fileName or linePrefix;
every emit operation leaves every field except the queue unchanged (stated
as: the result is the input state with only the queue replaced); and rotate
modifies only the anchor date, the file handle and the line writer (stated
as: the result is the input state with only those three fields replaced —
in particular rotate leaves the queue and threshold alone). -/
theorem C8_frame_conditions (st : Nat → String × Nat)
    (format msg vStr now msgln : String) (today : Date) (s : LogState) (fs : FS) :
    (Trace st msg s).1 = { s with queue := (Trace st msg s).1.queue } ∧
    (Debug st format msg vStr now s).1 =
      { s with queue := (Debug st format msg vStr now s).1.queue } ∧
    (Info st format msg vStr now s).1 =
      { s with queue := (Info st format msg vStr now s).1.queue } ∧
    (Warning st format msg vStr now s).1 =
      { s with queue := (Warning st format msg vStr now s).1.queue } ∧
    (Error st format msg vStr now s).1 =
      { s with queue := (Error st format msg vStr now s).1.queue } ∧
    (Printf st msg s).1 = { s with queue := (Printf st msg s).1.queue } ∧
    (Print st msg s).1 = { s with queue := (Print st msg s).1.queue } ∧
    (Println st msgln s).1 = { s with queue := (Println st msgln s).1.queue } ∧
    (Fatal st msgln vStr s).state =
      { s with queue := (Fatal st msgln vStr s).state.queue } ∧
    (Fatally st msgln vStr s).state =
      { s with queue := (Fatally st msgln vStr s).state.queue } ∧
    (split today s fs).1 =
      { s with date := (split today s fs).1.date,
               logFile := (split today s fs).1.logFile,
               logger := (split today s fs).1.logger } := by
  refine ⟨?_, ?_, ?_, ?_, ?_, rfl, rfl, rfl, rfl, rfl, ?_⟩
  · unfold Trace
    split <;> rfl
  · unfold Debug
    split <;> rfl
  · unfold Info
    split <;> rfl
  · unfold Warning
    split <;> rfl
  · unfold Error
    split <;> rfl
  · unfold Logs.split
    split
    · rfl
    · split <;> rfl

/-- C9: each emit operation reads the caller location at a fixed stack
depth: its output depends only on the frame it inspects, which is frame 2
for Trace and frame 1 for every other emit operation; and Trace genuinely
depends on frame 2 (two stacks agreeing at frame 1 but not at frame 2 give
different Trace output). -/
theorem C9_caller_depth :
    (∀ st st2 msg s, st 2 = st2 2 → Trace st msg s = Trace st2 msg s) ∧
    (∀ st st2 format msg vStr now s, st 1 = st2 1 →
      Debug st format msg vStr now s = Debug st2 format msg vStr now s) ∧
    (∀ st st2 format msg vStr now s, st 1 = st2 1 →
      Info st format msg vStr now s = Info st2 format msg vStr now s) ∧
    (∀ st st2 format msg vStr now s, st 1 = st2 1 →
      Warning st format msg vStr now s = Warning st2 format msg vStr now s) ∧
    (∀ st st2 format msg vStr now s, st 1 = st2 1 →
      Error st format msg vStr now s = Error st2 format msg vStr now s) ∧
    (∀ st st2 msg s, st 1 = st2 1 → Printf st msg s = Printf st2 msg s) ∧
    (∀ st st2 msg s, st 1 = st2 1 → Print st msg s = Print st2 msg s) ∧
    (∀ st st2 msgln s, st 1 = st2 1 → Println st msgln s = Println st2 msgln s) ∧
    (∀ st st2 msgln vStr s, st 1 = st2 1 →
      Fatal st msgln vStr s = Fatal st2 msgln vStr s) ∧
    (∀ st st2 msgln vStr s, st 1 = st2 1 →
      Fatally st msgln vStr s = Fatally st2 msgln vStr s) ∧
    (∃ st st2 msg s, st 1 = st2 1 ∧ ¬ Trace st msg s = Trace st2 msg s) := by
  refine ⟨?_, ?_, ?_, ?_, ?_, ?_, ?_, ?_, ?_, ?_, ?_⟩
  · intro st st2 msg s h
    unfold Trace
    rw [h]
  · intro st st2 format msg vStr now s h
    unfold Debug
    rw [h]
  · intro st st2 format msg vStr now s h
    unfold Info
    rw [h]
  · intro st st2 format msg vStr now s h
    unfold Warning
    rw [h]
  · intro st st2 format msg vStr now s h
    unfold Error
    rw [h]
  · intro st st2 msg s h
    unfold Printf
    rw [h]
  · intro st st2 msg s h
    unfold Print
    rw [h]
  · intro st st2 msgln s h
    unfold Println
    rw [h]
  · intro st st2 msgln vStr s h
    unfold Fatal
    rw [h]
  · intro st st2 msgln vStr s h
    unfold Fatally
    rw [h]
  · refine ⟨fun k => ("a.go", k),
      fun k => if k = 2 then ("b.go", 7) else ("a.go", k),
      "m", { sW with logLevel := .TRACE }, rfl, ?_⟩
    decide

/-- C9 witness: two concrete stacks that agree at frame 2 (differing at
frame 1) give the same Trace output, by the theorem's first component. -/
theorem C9_caller_depth_witness :
    Trace (fun k => ("x.go", k)) "m" sW =
      Trace (fun k => if k = 2 then ("x.go", 2) else ("y.go", 9)) "m" sW :=
  C9_caller_depth.1 (fun k => ("x.go", k))
    (fun k => if k = 2 then ("x.go", 2) else ("y.go", 9)) "m" sW rfl

/-- C10: for every configured threshold (the state, hence the threshold, is
universally quantified, so OFF is covered), Printf, Print and Println push
their rendered line unconditionally, and the rendered lines carry no level
tag: they consist only of the message, the caller base name and line
number, and the Println trailer. -/
theorem C10_print_family_unconditional (st : Nat → String × Nat)
    (msg msgln : String) (s : LogState) :
    (Printf st msg s).1.queue =
      s.queue ++ ["[" ++ msg ++ baseName (st 1).1 ++ ":" ++ toString (st 1).2 ++ "]"] ∧
    (Print st msg s).1.queue =
      s.queue ++ ["[" ++ msg ++ baseName (st 1).1 ++ ":" ++ toString (st 1).2 ++ "]"] ∧
    (Println st msgln s).1.queue =
      s.queue ++ ["[" ++ baseName (st 1).1 ++ ":" ++ toString (st 1).2 ++ "]" ++ msgln] :=
  ⟨rfl, rfl, rfl⟩

end Logs
